import Mathlib

/-!
Verification development for the insight-generation core of the Intake
nutrition-tracking application (`src/server/routes.ts`).

The embedding models JavaScript numbers by exact rationals (ℚ).  The
platform primitive `Number(x.toFixed(d))` is modelled by half-up rounding
at `d` fractional digits, per the ECMAScript `toFixed` specification
("if there are two such n, pick the larger n"), and `Math.round(x)` by
`⌊x + 1/2⌋`.  The platform's number-to-string rendering is abstracted by
the canonical rational rendering `toString : ℚ → String`; no claim below
depends on the exact digits of an interpolated number inside a template
string.  Asynchronous wrappers in the source (`async`/`await` around pure
template logic) are dropped: every modelled function is deterministic and
total, mirroring the source's lack of real external calls.
-/

/-- Models `Math.round(x)`: round half toward positive infinity. -/
def jsRound (q : ℚ) : ℤ := ⌊q + 1/2⌋

/-- Models `Number(x.toFixed(d))`: round half-up at `d` fractional digits.
Every call site of the source's `formatNumber` immediately wraps the result
back into a number via `Number(...)`, and the string round-trip through the
canonical rendering is exact, so this is the numeric effect of
`Number(formatNumber(x, d))`. -/
def jsToFixed (q : ℚ) (d : ℕ) : ℚ := (⌊q * 10 ^ d + 1/2⌋ : ℤ) / 10 ^ d

/-- Abstraction of the platform number-to-string rendering used when a
formatted number is interpolated into a template string. -/
def ratRender (q : ℚ) : String := toString q

/-- Models the string produced by `formatNumber(x, d)` for a numeric input
(`Number(num.toFixed(decimals)).toString()`). -/
def formatNumberStr (q : ℚ) (d : ℕ) : String := ratRender (jsToFixed q d)

/-- A JavaScript value as it can reach `formatNumber`: a (finite) number, a
string, or `undefined`. -/
inductive JsVal where
  | num (q : ℚ)
  | str (s : String)
  | undef
deriving DecidableEq

/-- True exactly on `JsVal.num`. -/
def JsVal.isNum : JsVal → Bool
  | .num _ => true
  | _ => false

/-- True exactly on `JsVal.str`. -/
def JsVal.isStr : JsVal → Bool
  | .str _ => true
  | _ => false

/-- Digits of a decimal literal read as a natural number. -/
def decNat (ds : List Char) : ℕ := ds.foldl (fun a c => 10 * a + (c.toNat - 48)) 0

/-- Models JavaScript `parseFloat`: skip leading whitespace, optional sign,
then a decimal significand (digits, optional point and fraction digits) and
an optional exponent part; any longer tail is ignored.  `none` models the
`NaN` outcome when no numeric prefix exists.  (The non-finite literal
`Infinity` lies outside the rational model and is not represented.) -/
def parseFloatQ (s : String) : Option ℚ :=
  let l := s.data.dropWhile Char.isWhitespace
  let sgn : ℚ × List Char :=
    match l with
    | '-' :: t => (-1, t)
    | '+' :: t => (1, t)
    | _ => (1, l)
  let ip := sgn.2.takeWhile Char.isDigit
  let l2 := sgn.2.dropWhile Char.isDigit
  let fp : List Char × List Char :=
    match l2 with
    | '.' :: t => (t.takeWhile Char.isDigit, t.dropWhile Char.isDigit)
    | _ => ([], l2)
  if ip.isEmpty && fp.1.isEmpty then none
  else
    let base : ℚ := (decNat ip : ℚ) + (decNat fp.1 : ℚ) / 10 ^ fp.1.length
    let e : ℤ :=
      match fp.2 with
      | c :: t =>
        if c = 'e' ∨ c = 'E' then
          let es : ℤ × List Char :=
            match t with
            | '-' :: u => (-1, u)
            | '+' :: u => (1, u)
            | _ => (1, t)
          let ed := es.2.takeWhile Char.isDigit
          if ed.isEmpty then 0 else es.1 * (decNat ed : ℤ)
        else 0
      | [] => 0
    some (sgn.1 * base * (10 : ℚ) ^ e)

/-- The utility `formatNumber` of `src/server/routes.ts` (lines 11–16):
`const num = typeof value === 'string' ? parseFloat(value) : (value || 0);
if (isNaN(num)) return '0';
return Number(num.toFixed(decimals)).toString();`
The result is a string in every case. -/
def formatNumber (v : JsVal) (decimals : ℕ) : JsVal :=
  let num : Option ℚ :=
    match v with
    | .str s => parseFloatQ s
    | .num q => some q
    | .undef => some 0
  match num with
  | none => .str "0"
  | some q => .str (formatNumberStr q decimals)

/-- Numeric effect of `Number(formatNumber(x, d))` at the aggregation call
sites, where `x` is already a number. -/
def formatNumberQ (q : ℚ) (d : ℕ) : ℚ := jsToFixed q d

/-- Character-list prefix test (used to model `String.prototype.includes`). -/
def listPre (needle hay : List Char) : Bool :=
  match needle, hay with
  | [], _ => true
  | _ :: _, [] => false
  | x :: xs, y :: ys => x == y && listPre xs ys

/-- Character-list containment test. -/
def listHas (needle hay : List Char) : Bool :=
  match hay with
  | [] => listPre needle []
  | _ :: t => listPre needle hay || listHas needle t

/-- Models `hay.includes(needle)` on JavaScript strings. -/
def strHas (hay needle : String) : Bool := listHas needle.data hay.data

/-- Models `s.toLowerCase()` (character-wise lowering). -/
def toLowerS (s : String) : String := ⟨s.data.map Char.toLower⟩

/-- `NutritionData` (`src/shared/schema.ts`): calories, protein, carbs, fat
required; fiber, sugar, sodium optional (`?`), plus optional vitamin and
mineral maps.  Absent optional numeric fields are read as 0 by the core
(`x || 0`). -/
structure NutritionData where
  calories : ℚ
  protein : ℚ
  carbs : ℚ
  fat : ℚ
  fiber : Option ℚ
  sugar : Option ℚ
  sodium : Option ℚ
  vitamins : Option (List (String × ℚ))
  minerals : Option (List (String × ℚ))
deriving DecidableEq

/-- A medication record `{name, dosage?}` on the profile. -/
structure Medication where
  name : String
  dosage : Option String
deriving DecidableEq

/-- `HealthProfile` (`src/shared/schema.ts`), restricted to the fields the
insight core can observe (database id and timestamps elided). -/
structure HealthProfile where
  name : String
  height : ℤ
  weight : ℤ
  birthYear : ℤ
  birthMonth : ℤ
  medicalConditions : List String
  allergies : List String
  medications : List Medication
  smokingStatus : String
  smokingFrequency : Option String
deriving DecidableEq

/-- `FoodEntry` (`src/shared/schema.ts`), restricted to the fields the
insight core can observe (database id and creation timestamp elided). -/
structure FoodEntry where
  profileId : String
  foodName : String
  servingSize : ℚ
  servingUnit : String
  mealType : String
  nutritionData : NutritionData
  entryDate : String
deriving DecidableEq

/-- The `type` field of `ConflictResult`. -/
inductive ConflictType where
  | allergy
  | condition
  | medication
  | food_interaction
deriving DecidableEq

/-- The `severity` field of `ConflictResult`. -/
inductive Severity where
  | low
  | medium
  | high
deriving DecidableEq

/-- `ConflictResult` (`src/shared/schema.ts`). -/
structure ConflictResult where
  type : ConflictType
  severity : Severity
  description : String
  foodItem : String
deriving DecidableEq

/-- The `type` field of `Recommendation`. -/
inductive RecType where
  | diet
  | tcm
  | lifestyle
deriving DecidableEq

/-- The `priority` field of `Recommendation`. -/
inductive Priority where
  | low
  | medium
  | high
deriving DecidableEq

/-- `Recommendation` (`src/shared/schema.ts`). -/
structure Recommendation where
  type : RecType
  title : String
  description : String
  priority : Priority
deriving DecidableEq

/-- Reading of an optional nutrition field with the `x || 0` default. -/
def optQ (v : Option ℚ) : ℚ := v.getD 0

/-- One field-wise accumulation loop `for (const entry of entries) acc += f(entry)`
as it appears in all four aggregation sites of `routes.ts`. -/
def sumBy (f : FoodEntry → ℚ) (entries : List FoodEntry) : ℚ :=
  entries.foldl (fun acc e => acc + f e) 0

/-- `generateSmartResponse` (`routes.ts` lines 563–590): deterministic
rule-based template text keyed on substrings of the lowercased prompt. -/
def generateSmartResponse (prompt : String) : String :=
  let lowerPrompt := toLowerS prompt
  if strHas lowerPrompt "diabetes" && strHas lowerPrompt "sugar" then
    "High sugar content detected. Consider monitoring blood glucose levels and consulting with your healthcare provider about portion sizes."
  else if strHas lowerPrompt "hypertension" && strHas lowerPrompt "sodium" then
    "Elevated sodium intake identified. This may impact blood pressure management."
  else if strHas lowerPrompt "heart" && strHas lowerPrompt "fat" then
    "Consider the type of fats consumed. Focus on healthy unsaturated fats from sources like fish, nuts, and olive oil."
  else if strHas lowerPrompt "protein" && strHas lowerPrompt "low" then
    "Protein intake appears low. Consider adding lean proteins like chicken, fish, legumes, or Greek yogurt."
  else if strHas lowerPrompt "fiber" && strHas lowerPrompt "low" then
    "Fiber intake could be improved. Add more vegetables, fruits, whole grains, and legumes to your diet."
  else
    "Overall dietary pattern looks balanced. Continue monitoring your nutritional intake."

/-- `analyzeWithAI` (`routes.ts` lines 552–561): delegates to
`generateSmartResponse`; the catch branch is unreachable in the model. -/
def analyzeWithAI (prompt : String) : String := generateSmartResponse prompt

/-- The conflict pushed by the allergy pass of `detectConflicts`. -/
def allergyConflict (e : FoodEntry) (allergy : String) : ConflictResult :=
  { type := ConflictType.allergy
    severity := Severity.high
    description := e.foodName ++ (" may contain " ++ (allergy ++ ", which you\x27re allergic to. Please verify ingredients carefully."))
    foodItem := e.foodName }

/-- The allergy pass of `detectConflicts` (`routes.ts` lines 615–626). -/
def allergyPass (profile : HealthProfile) (entries : List FoodEntry) : List ConflictResult :=
  entries.flatMap fun e =>
    profile.allergies.flatMap fun allergy =>
      if strHas (toLowerS e.foodName) (toLowerS allergy) then [allergyConflict e allergy] else []

/-- The aggregate diabetes conflict of `detectConflicts` (`routes.ts`
lines 632–640). -/
def diabetesAggConflict (totalSugar : ℚ) : ConflictResult :=
  { type := ConflictType.condition
    severity := if totalSugar > 80 then Severity.high else Severity.medium
    description := "High sugar intake (" ++ (formatNumberStr totalSugar 2 ++ ("g) detected with diabetes condition. " ++ analyzeWithAI ("Patient has diabetes and consumed " ++ (formatNumberStr totalSugar 2 ++ "g of sugar today. Analyze risk level."))))
    foodItem := "Daily total" }

/-- The aggregate hypertension conflict of `detectConflicts` (`routes.ts`
lines 642–650). -/
def hypertensionAggConflict (totalSodium : ℚ) : ConflictResult :=
  { type := ConflictType.condition
    severity := if totalSodium > 3000 then Severity.high else Severity.medium
    description := "High sodium intake (" ++ (formatNumberStr totalSodium 0 ++ ("mg) with hypertension. " ++ analyzeWithAI ("Patient has hypertension and consumed " ++ (formatNumberStr totalSodium 0 ++ "mg of sodium today. Assess impact."))))
    foodItem := "Daily total" }

/-- The aggregate heart/cardiac conflict of `detectConflicts` (`routes.ts`
lines 652–659). -/
def heartAggConflict : ConflictResult :=
  { type := ConflictType.condition
    severity := Severity.medium
    description := "Elevated saturated fat intake may impact heart health. Consider lean proteins and healthy fats."
    foodItem := "Daily total" }

/-- One iteration of the aggregate medical-condition loop of
`detectConflicts` (`routes.ts` lines 629–660). -/
def condAggPass (totalSodium totalSugar totalSaturatedFat : ℚ) (condition : String) : List ConflictResult :=
  let conditionLower := toLowerS condition
  (if strHas conditionLower "diabetes" ∧ totalSugar > 50 then [diabetesAggConflict totalSugar] else [])
  ++ (if strHas conditionLower "hypertension" ∧ totalSodium > 2300 then [hypertensionAggConflict totalSodium] else [])
  ++ (if (strHas conditionLower "heart" ∨ strHas conditionLower "cardiac") ∧ totalSaturatedFat > 20 then [heartAggConflict] else [])

/-- The per-entry diabetes conflict of `detectConflicts` (`routes.ts`
lines 667–674). -/
def perEntryDiabetesConflict (e : FoodEntry) : ConflictResult :=
  { type := ConflictType.condition
    severity := Severity.medium
    description := "High sugar content in " ++ (e.foodName ++ " may affect blood sugar levels")
    foodItem := e.foodName }

/-- The per-entry hypertension conflict of `detectConflicts` (`routes.ts`
lines 676–683). -/
def perEntryHypertensionConflict (e : FoodEntry) : ConflictResult :=
  { type := ConflictType.condition
    severity := Severity.medium
    description := "High sodium content in " ++ (e.foodName ++ " may affect blood pressure")
    foodItem := e.foodName }

/-- One (condition, entry) iteration of the per-entry pass of
`detectConflicts` (`routes.ts` lines 663–685). -/
def perEntryPass (condition : String) (e : FoodEntry) : List ConflictResult :=
  (if strHas (toLowerS condition) "diabetes" ∧ optQ e.nutritionData.sugar > 20 then [perEntryDiabetesConflict e] else [])
  ++ (if strHas (toLowerS condition) "hypertension" ∧ optQ e.nutritionData.sodium > 500 then [perEntryHypertensionConflict e] else [])

/-- The formatted daily sugar total computed at the head of
`detectConflicts` (`Number(formatNumber(totalSugar))`). -/
def totalSugarFmt (entries : List FoodEntry) : ℚ :=
  formatNumberQ (sumBy (fun e => optQ e.nutritionData.sugar) entries) 2

/-- `detectConflicts` (`routes.ts` lines 593–688): allergy pass, then the
aggregate condition loop, then the per-entry condition loop, in source
push order.  Saturated fat is estimated as 30% of total fat per entry. -/
def detectConflicts (profile : HealthProfile) (entries : List FoodEntry) : List ConflictResult :=
  let totalSodium := formatNumberQ (sumBy (fun e => optQ e.nutritionData.sodium) entries) 0
  let totalSugar := totalSugarFmt entries
  let totalSaturatedFat := formatNumberQ (sumBy (fun e => e.nutritionData.fat * (3/10)) entries) 2
  allergyPass profile entries
  ++ profile.medicalConditions.flatMap (condAggPass totalSodium totalSugar totalSaturatedFat)
  ++ profile.medicalConditions.flatMap (fun condition => entries.flatMap (perEntryPass condition))

/-- A totals record over the seven aggregated nutrition fields. -/
structure NutrientTotals where
  calories : ℚ
  protein : ℚ
  carbs : ℚ
  fat : ℚ
  fiber : ℚ
  sodium : ℚ
  sugar : ℚ
deriving DecidableEq

/-- The raw accumulation loop shared by the aggregation sites of
`routes.ts` (`rawTotals.x += nutrition.x || 0` for each entry): one
accumulator per field. -/
def rawTotalsOf (entries : List FoodEntry) : NutrientTotals :=
  { calories := sumBy (fun e => e.nutritionData.calories) entries
    protein := sumBy (fun e => e.nutritionData.protein) entries
    carbs := sumBy (fun e => e.nutritionData.carbs) entries
    fat := sumBy (fun e => e.nutritionData.fat) entries
    fiber := sumBy (fun e => optQ e.nutritionData.fiber) entries
    sodium := sumBy (fun e => optQ e.nutritionData.sodium) entries
    sugar := sumBy (fun e => optQ e.nutritionData.sugar) entries }

/-- The formatted totals record (`Number(formatNumber(...))` applied to
each summed field: calories and sodium at 0 decimals, the rest at 2),
as built identically at `routes.ts` lines 477–485, 708–716, 825–832 and
916–924. -/
def fmtTotalsOf (entries : List FoodEntry) : NutrientTotals :=
  { calories := formatNumberQ (rawTotalsOf entries).calories 0
    protein := formatNumberQ (rawTotalsOf entries).protein 2
    carbs := formatNumberQ (rawTotalsOf entries).carbs 2
    fat := formatNumberQ (rawTotalsOf entries).fat 2
    fiber := formatNumberQ (rawTotalsOf entries).fiber 2
    sodium := formatNumberQ (rawTotalsOf entries).sodium 0
    sugar := formatNumberQ (rawTotalsOf entries).sugar 2 }

/-- The `dailyTotals` record assembled by the insights route
(`routes.ts` lines 462–485). -/
def dailyTotals (entries : List FoodEntry) : NutrientTotals := fmtTotalsOf entries

/-- The protein recommendation (`routes.ts` lines 719–727). -/
def proteinRec (rawProtein fmtProtein : ℚ) : Recommendation :=
  { type := RecType.diet
    title := "Optimize Protein Intake"
    description := "Current intake: " ++ (formatNumberStr rawProtein 2 ++ ("g. " ++ analyzeWithAI ("User consumed only " ++ (formatNumberStr rawProtein 2 ++ "g protein today. Recommend protein sources."))))
    priority := if fmtProtein < 30 then Priority.high else Priority.medium }

/-- The fiber recommendation (`routes.ts` lines 729–736). -/
def fiberRec (rawFiber : ℚ) : Recommendation :=
  { type := RecType.diet
    title := "Increase Fiber Intake"
    description := "Current fiber: " ++ (formatNumberStr rawFiber 2 ++ "g. Add more vegetables, fruits, whole grains, and legumes to reach 25-30g daily.")
    priority := Priority.medium }

/-- The sodium recommendation (`routes.ts` lines 738–746). -/
def sodiumRec (rawSodium fmtSodium : ℚ) : Recommendation :=
  { type := RecType.diet
    title := "Reduce Sodium Intake"
    description := "Current sodium: " ++ (formatNumberStr rawSodium 0 ++ ("mg. " ++ analyzeWithAI ("User consumed " ++ (formatNumberStr rawSodium 2 ++ "mg sodium today, exceeding recommendations."))))
    priority := if fmtSodium > 3000 then Priority.high else Priority.medium }

/-- The diabetes management recommendation (`routes.ts` lines 752–760). -/
def diabetesMgmtRec (rawCarbs rawSugar : ℚ) : Recommendation :=
  { type := RecType.diet
    title := "Blood Sugar Management"
    description := "Today\x27s carbs: " ++ (formatNumberStr rawCarbs 2 ++ ("g, sugars: " ++ (formatNumberStr rawSugar 2 ++ ("g. " ++ analyzeWithAI ("Diabetic patient consumed " ++ (formatNumberStr rawSugar 2 ++ ("g sugar and " ++ (formatNumberStr rawCarbs 2 ++ "g carbs. Provide management advice."))))))))
    priority := Priority.high }

/-- The hypertension recommendation (`routes.ts` lines 762–769). -/
def hypertensionRec (rawSodium : ℚ) : Recommendation :=
  { type := RecType.lifestyle
    title := "Blood Pressure Support"
    description := "Monitor sodium intake (today: " ++ (formatNumberStr rawSodium 0 ++ "mg). Consider DASH diet principles with more potassium-rich foods.")
    priority := Priority.high }

/-- The heart-health recommendation (`routes.ts` lines 771–778). -/
def heartRec (rawFat : ℚ) : Recommendation :=
  { type := RecType.diet
    title := "Heart-Healthy Nutrition"
    description := "Focus on omega-3 fatty acids, limit saturated fats. Today\x27s fat intake: " ++ (formatNumberStr rawFat 2 ++ "g.")
    priority := Priority.high }

/-- One iteration of the medical-condition loop of
`generateRecommendations` (`routes.ts` lines 749–779). -/
def condRecsPass (raw : NutrientTotals) (condition : String) : List Recommendation :=
  let conditionLower := toLowerS condition
  (if strHas conditionLower "diabetes" then [diabetesMgmtRec raw.carbs raw.sugar] else [])
  ++ (if strHas conditionLower "hypertension" then [hypertensionRec raw.sodium] else [])
  ++ (if strHas conditionLower "heart" ∨ strHas conditionLower "cardiac" then [heartRec raw.fat] else [])

/-- The unconditional seasonal recommendation (`routes.ts` lines 781–790);
`month` is the zero-based calendar month `new Date().getMonth()`. -/
def seasonalRec (month : ℕ) : Recommendation :=
  let currentSeason := if month < 6 then "spring/summer" else "fall/winter"
  { type := RecType.tcm
    title := "Seasonal Balance (" ++ (currentSeason ++ ")")
    description :=
      if currentSeason = "spring/summer" then
        "Include cooling foods like cucumber, watermelon, and green leafy vegetables."
      else
        "Include warming foods like ginger, cinnamon, and cooked grains to support digestive health."
    priority := Priority.low }

/-- The portion-control recommendation (`routes.ts` lines 793–803). -/
def portionRec (avgCaloriesPerMeal : ℚ) : Recommendation :=
  { type := RecType.lifestyle
    title := "Portion Control"
    description := "Consider smaller, more frequent meals. Current average: " ++ (ratRender ((jsRound avgCaloriesPerMeal : ℤ) : ℚ) ++ " calories per meal.")
    priority := Priority.medium }

/-- `generateRecommendations` (`routes.ts` lines 690–806), with the calendar
month passed explicitly in place of `new Date().getMonth()`. -/
def generateRecommendations (month : ℕ) (profile : HealthProfile) (entries : List FoodEntry) : List Recommendation :=
  let rawTotals := rawTotalsOf entries
  let totals := fmtTotalsOf entries
  let avgCaloriesPerMeal := totals.calories / (max entries.length 1 : ℚ)
  (if totals.protein < 50 then [proteinRec rawTotals.protein totals.protein] else [])
  ++ (if totals.fiber < 25 then [fiberRec rawTotals.fiber] else [])
  ++ (if totals.sodium > 2300 then [sodiumRec rawTotals.sodium totals.sodium] else [])
  ++ profile.medicalConditions.flatMap (condRecsPass rawTotals)
  ++ [seasonalRec month]
  ++ (if totals.calories > 0 ∧ avgCaloriesPerMeal > 600 then [portionRec avgCaloriesPerMeal] else [])

/-- The pre-clamp score of `calculateHealthScore` (`routes.ts` lines
808–885): start at 10, apply the conflict loop, the nutritional-balance
deductions, the variety bonus, the condition-specific penalties, and the
final severity-count deductions. -/
def healthScoreRaw (profile : HealthProfile) (entries : List FoodEntry) (conflicts : List ConflictResult) : ℚ :=
  let totals := fmtTotalsOf entries
  let score : ℚ := 10
  let score := conflicts.foldl (fun s c =>
    if c.severity = Severity.high then s - 2
    else if c.severity = Severity.medium then s - 1
    else s - 1/2) score
  let score := if totals.protein < 30 then score - 3/2
    else if totals.protein < 50 then score - 1/2
    else if totals.protein > 150 then score - 1/2 else score
  let score := if totals.fiber < 15 then score - 1
    else if totals.fiber < 25 then score - 1/2 else score
  let score := if totals.sodium > 3500 then score - 2
    else if totals.sodium > 2300 then score - 1 else score
  let score := if totals.sugar > 100 then score - 2
    else if totals.sugar > 50 then score - 1 else score
  let score := if totals.calories < 1200 then score - 3/2
    else if totals.calories > 3000 then score - 1 else score
  let uniqueFoods := (entries.map (fun e => toLowerS e.foodName)).dedup
  let score := if uniqueFoods.length ≥ 5 then score + 1/2 else score
  let score := profile.medicalConditions.foldl (fun s condition =>
    let s := if strHas (toLowerS condition) "diabetes" ∧ totals.sugar > 75 then s - 3/2 else s
    if strHas (toLowerS condition) "hypertension" ∧ totals.sodium > 2000 then s - 1 else s) score
  let highSeverityConflicts := (conflicts.filter (fun c => c.severity = Severity.high)).length
  let score := score - highSeverityConflicts * 2
  let mediumSeverityConflicts := (conflicts.filter (fun c => c.severity = Severity.medium)).length
  let score := score - mediumSeverityConflicts * 1
  score

/-- `calculateHealthScore` (`routes.ts` lines 808–889): the raw score
rounded to one decimal (`Math.round(score * 10) / 10`) and clamped into
`[1, 10]` (`Math.max(1, Math.min(10, ...))`). -/
def calculateHealthScore (profile : HealthProfile) (entries : List FoodEntry) (conflicts : List ConflictResult) : ℚ :=
  max 1 (min 10 ((jsRound (healthScoreRaw profile entries conflicts * 10) : ℤ) / 10))

/-- `determineStatus` (`routes.ts` lines 891–898). -/
def determineStatus (conflicts : List ConflictResult) : String :=
  let hasHighSeverity := conflicts.any (fun c => c.severity = Severity.high)
  let hasMediumSeverity := conflicts.any (fun c => c.severity = Severity.medium)
  if hasHighSeverity then "avoid"
  else if hasMediumSeverity then "caution"
  else "safe"

/-- The result record of `generateWeeklySummary`. -/
structure WeeklySummary where
  period : String
  calories : ℤ
  protein : ℚ
  carbs : ℚ
  fat : ℚ
  variety : ℕ
  insights : List String
  aiAnalysis : String
  daysTracked : ℕ
  totalFoodsConsumed : ℕ
deriving DecidableEq

/-- The number of distinct entry dates among a week's entries
(`new Set(entriesThisWeek.map(entry => entry.entryDate)).size`). -/
def distinctDates (entries : List FoodEntry) : ℕ :=
  ((entries.map (fun e => e.entryDate)).dedup).length

/-- `generateWeeklySummary` (`routes.ts` lines 900–977). -/
def generateWeeklySummary (profile : HealthProfile) (entriesThisWeek : List FoodEntry) : WeeklySummary :=
  let weeklyTotals := fmtTotalsOf entriesThisWeek
  let days : ℕ := max (distinctDates entriesThisWeek) 1
  let avgCalories : ℤ := jsRound (weeklyTotals.calories / days)
  let avgProtein := formatNumberQ (weeklyTotals.protein / days) 2
  let avgCarbs := formatNumberQ (weeklyTotals.carbs / days) 2
  let avgFat := formatNumberQ (weeklyTotals.fat / days) 2
  let uniqueFoods := (entriesThisWeek.map (fun e => toLowerS e.foodName)).dedup
  let varietyScore : ℕ := min 10 uniqueFoods.length
  let aiAnalysis := analyzeWithAI ("User consumed an average of " ++ (ratRender (avgCalories : ℚ) ++ (" calories, " ++ (ratRender avgProtein ++ ("g protein, " ++ (ratRender avgCarbs ++ ("g carbs, " ++ (ratRender avgFat ++ ("g fat daily this week. They ate " ++ (toString uniqueFoods.length ++ " different foods. Analyze patterns and provide insights."))))))))))
  let insights : List String :=
    (if avgCalories < 1200 then ["Consider increasing caloric intake - current levels may be too low for optimal health"]
     else if avgCalories > 2500 then ["Caloric intake is above recommended levels - consider portion control"]
     else [])
    ++ (if avgProtein < 50 then ["Protein intake could be improved - aim for more lean proteins"] else [])
    ++ (if weeklyTotals.fiber / days < 25 then ["Increase fiber intake with more fruits, vegetables, and whole grains"] else [])
    ++ (if varietyScore < 5 then ["Try incorporating more variety in your diet for better nutrition"] else [])
  { period := "This Week"
    calories := avgCalories
    protein := avgProtein
    carbs := avgCarbs
    fat := avgFat
    variety := varietyScore
    insights := if insights.isEmpty then ["Your dietary patterns look balanced this week"] else insights
    aiAnalysis := aiAnalysis
    daysTracked := days
    totalFoodsConsumed := uniqueFoods.length }

/-- Number of conflicts of a given severity
(`conflicts.filter(c => c.severity === sev).length`). -/
def countSeverity (sev : Severity) (conflicts : List ConflictResult) : ℕ :=
  (conflicts.filter (fun c => c.severity = sev)).length

/-- The deduction taken for one conflict in the first severity loop of
`calculateHealthScore`. -/
def sevPen (c : ConflictResult) : ℚ :=
  if c.severity = Severity.high then 2
  else if c.severity = Severity.medium then 1
  else 1/2

/-- The two condition-specific deductions taken for one medical-condition
label in `calculateHealthScore`. -/
def condPen (totals : NutrientTotals) (condition : String) : ℚ :=
  (if strHas (toLowerS condition) "diabetes" ∧ totals.sugar > 75 then 3/2 else 0)
  + (if strHas (toLowerS condition) "hypertension" ∧ totals.sodium > 2000 then 1 else 0)

lemma foldl_add_eq (f : FoodEntry → ℚ) (es : List FoodEntry) : ∀ (a : ℚ),
    es.foldl (fun acc e => acc + f e) a = a + (es.map f).sum := by
  induction es with
  | nil => intro a; simp
  | cons e t ih => intro a; simp [List.foldl_cons, ih, add_assoc]

lemma sumBy_eq (f : FoodEntry → ℚ) (es : List FoodEntry) :
    sumBy f es = (es.map f).sum := by
  simpa using foldl_add_eq f es 0

lemma foldl_step_sub {α : Type} (step : ℚ → α → ℚ) (g : α → ℚ)
    (h : ∀ s a, step s a = s - g a) (l : List α) : ∀ (s : ℚ),
    l.foldl step s = s - (l.map g).sum := by
  induction l with
  | nil => intro s; simp
  | cons a t ih => intro s; rw [List.foldl_cons, h, ih, List.map_cons, List.sum_cons]; ring

lemma sevPen_sum (cs : List ConflictResult) :
    (cs.map sevPen).sum =
      2 * countSeverity Severity.high cs + countSeverity Severity.medium cs
        + (1/2) * countSeverity Severity.low cs := by
  induction cs with
  | nil => simp [countSeverity]
  | cons c t ih =>
    rcases c with ⟨ty, sev, d, f⟩
    cases sev <;>
      simp [sevPen, countSeverity, List.filter_cons, ih, Severity.low, List.map_cons] <;>
      push_cast <;> ring

lemma iteSubZero (P : Prop) [Decidable P] (a c : ℚ) :
    (if P then a - c else a) = a - (if P then c else 0) := by
  split_ifs <;> ring

lemma iteSub (P : Prop) [Decidable P] (a c d : ℚ) :
    (if P then a - c else a - d) = a - (if P then c else d) := by
  split_ifs <;> ring

lemma iteAddZero (P : Prop) [Decidable P] (a c : ℚ) :
    (if P then a + c else a) = a + (if P then c else 0) := by
  split_ifs <;> ring

set_option maxHeartbeats 1000000

/-- Claim C2: in `calculateHealthScore` the severity deductions are applied
twice — the first loop subtracts 2 per high-severity conflict, 1 per medium
and 0.5 per low, and the final severity-count pass again subtracts 2 per
high and 1 per medium — so before clamping each high-severity conflict
lowers the score by 4 in total, each medium by 2 and each low by 0.5. -/
theorem healthScoreRaw_double_deduction (p : HealthProfile) (es : List FoodEntry)
    (cs : List ConflictResult) :
    healthScoreRaw p es cs
      = healthScoreRaw p es []
        - (2 * (countSeverity Severity.high cs : ℚ) + (countSeverity Severity.medium cs : ℚ)
            + (1/2) * (countSeverity Severity.low cs : ℚ))
        - (2 * (countSeverity Severity.high cs : ℚ) + (countSeverity Severity.medium cs : ℚ)) := by
  have hc : ∀ (s : ℚ) (c : ConflictResult),
      (if c.severity = Severity.high then s - 2
       else if c.severity = Severity.medium then s - 1 else s - 1/2) = s - sevPen c := by
    intro s c
    simp only [sevPen]
    split_ifs <;> ring
  have hcond : ∀ (s : ℚ) (condition : String),
      (if strHas (toLowerS condition) "hypertension" ∧ (fmtTotalsOf es).sodium > 2000 then
        (if strHas (toLowerS condition) "diabetes" ∧ (fmtTotalsOf es).sugar > 75 then s - 3/2 else s) - 1
       else (if strHas (toLowerS condition) "diabetes" ∧ (fmtTotalsOf es).sugar > 75 then s - 3/2 else s))
        = s - condPen (fmtTotalsOf es) condition := by
    intro s condition
    simp only [condPen]
    split_ifs <;> ring
  simp only [healthScoreRaw]
  rw [foldl_step_sub _ sevPen hc cs, foldl_step_sub _ sevPen hc [],
    foldl_step_sub _ (condPen (fmtTotalsOf es)) hcond p.medicalConditions,
    foldl_step_sub _ (condPen (fmtTotalsOf es)) hcond p.medicalConditions]
  simp only [List.map_nil, List.sum_nil, List.filter_nil, List.length_nil, sub_zero,
    iteSubZero, iteSub, iteAddZero]
  rw [sevPen_sum]
  simp only [countSeverity]
  push_cast
  ring

/-- Claim C1: for every profile, entry list and conflict list the health
score lies in `[1, 10]` and is an integer multiple of one tenth (the raw
accumulated score is rounded to one decimal and clamped to `[1, 10]`). -/
theorem calculateHealthScore_bounds (p : HealthProfile) (es : List FoodEntry)
    (cs : List ConflictResult) :
    1 ≤ calculateHealthScore p es cs ∧ calculateHealthScore p es cs ≤ 10 ∧
      ∃ k : ℤ, calculateHealthScore p es cs = (k : ℚ) / 10 := by
  simp only [calculateHealthScore]
  set x : ℚ := ((jsRound (healthScoreRaw p es cs * 10) : ℤ) : ℚ) / 10 with hx
  refine ⟨le_max_left 1 _, max_le (by norm_num) ((min_le_left 10 x)), ?_⟩
  rcases le_total x 1 with h | h
  · refine ⟨10, ?_⟩
    rw [min_eq_right (h.trans (by norm_num)), max_eq_left h]
    norm_num
  · rcases le_total x 10 with h2 | h2
    · exact ⟨jsRound (healthScoreRaw p es cs * 10), by rw [min_eq_right h2, max_eq_right h]⟩
    · refine ⟨100, ?_⟩
      rw [min_eq_left h2, max_eq_right (by norm_num : (1 : ℚ) ≤ 10)]
      norm_num

/-- Claim C4: `determineStatus` returns "avoid" when some conflict is
high-severity, else "caution" when some conflict is medium-severity, else
"safe"; consequently a list of only low-severity conflicts yields "safe",
appending a high-severity conflict to any list yields "avoid", and the
empty list yields "safe". -/
theorem determineStatus_spec :
    (∀ cs : List ConflictResult,
      determineStatus cs =
        (if ∃ c ∈ cs, c.severity = Severity.high then "avoid"
         else if ∃ c ∈ cs, c.severity = Severity.medium then "caution"
         else "safe"))
    ∧ (∀ cs : List ConflictResult, (∀ c ∈ cs, c.severity = Severity.low) →
        determineStatus cs = "safe")
    ∧ (∀ (cs : List ConflictResult) (c : ConflictResult), c.severity = Severity.high →
        determineStatus (cs ++ [c]) = "avoid")
    ∧ determineStatus ([] : List ConflictResult) = "safe" := by
  have hmain : ∀ cs : List ConflictResult,
      determineStatus cs =
        (if ∃ c ∈ cs, c.severity = Severity.high then "avoid"
         else if ∃ c ∈ cs, c.severity = Severity.medium then "caution"
         else "safe") := by
    intro cs
    simp only [determineStatus, List.any_eq_true, decide_eq_true_eq]
  refine ⟨hmain, ?_, ?_, by simp [determineStatus]⟩
  · intro cs hlow
    rw [hmain]
    rw [if_neg, if_neg]
    · rintro ⟨c, hc, hsev⟩
      have := hlow c hc
      rw [this] at hsev
      exact absurd hsev (by simp)
    · rintro ⟨c, hc, hsev⟩
      have := hlow c hc
      rw [this] at hsev
      exact absurd hsev (by simp)
  · intro cs c hc
    rw [hmain, if_pos]
    exact ⟨c, by simp, hc⟩

/-- Witness for C4 at concrete inputs: a singleton low-severity list is
"safe", and appending a high-severity conflict to the empty list gives
"avoid". -/
theorem determineStatus_spec_witness :
    determineStatus [⟨ConflictType.condition, Severity.low, "d", "f"⟩] = "safe"
    ∧ determineStatus ([] ++ [⟨ConflictType.allergy, Severity.high, "d", "f"⟩]) = "avoid" :=
  ⟨determineStatus_spec.2.1 _ (by intro c hc; simp at hc; rw [hc]),
   determineStatus_spec.2.2.1 [] _ rfl⟩

/-- Claim C7: the formatted daily totals do not depend on the order of the
entry list — any permutation of the entries yields the identical totals
record. -/
theorem dailyTotals_perm (l1 l2 : List FoodEntry) (h : l1.Perm l2) :
    dailyTotals l1 = dailyTotals l2 := by
  have hs : ∀ f : FoodEntry → ℚ, (l1.map f).sum = (l2.map f).sum :=
    fun f => (h.map f).sum_eq
  simp only [dailyTotals, fmtTotalsOf, rawTotalsOf, sumBy_eq, hs]

/-- A profile with no medical conditions and no allergies (used for
concrete scenarios). -/
def sampleProfileEmpty : HealthProfile :=
  { name := "Default User", height := 170, weight := 70, birthYear := 1990, birthMonth := 6,
    medicalConditions := [], allergies := [], medications := [], smokingStatus := "never",
    smokingFrequency := none }

/-- A nutrition record carrying only calories (other fields zero/absent). -/
def calOnlyNutrition (cal : ℚ) : NutritionData :=
  { calories := cal, protein := 0, carbs := 0, fat := 0, fiber := none, sugar := none,
    sodium := none, vitamins := none, minerals := none }

/-- A sample 200-calorie entry on a given date. -/
def weekEntry (date : String) : FoodEntry :=
  { profileId := "default", foodName := "Oatmeal", servingSize := 1, servingUnit := "cup",
    mealType := "breakfast", nutritionData := calOnlyNutrition 200, entryDate := date }

/-- Seven 200-calorie entries on seven distinct dates. -/
def weekEntries7 : List FoodEntry :=
  [weekEntry "2025-01-01", weekEntry "2025-01-02", weekEntry "2025-01-03",
   weekEntry "2025-01-04", weekEntry "2025-01-05", weekEntry "2025-01-06",
   weekEntry "2025-01-07"]

/-- Witness for C7 at concrete inputs: swapping two concrete entries leaves
the formatted daily totals unchanged. -/
theorem dailyTotals_perm_witness :
    dailyTotals [weekEntry "2025-01-01", weekEntry "2025-01-02"]
      = dailyTotals [weekEntry "2025-01-02", weekEntry "2025-01-01"] :=
  dailyTotals_perm _ _ (List.Perm.swap _ _ _)

lemma filter_if_singleton {α : Type} (p : α → Bool) (P : Prop) [Decidable P] (a : α)
    (h : p a = false) : List.filter p (if P then [a] else []) = [] := by
  split_ifs <;> simp [h]

/-- Claim C6: `generateRecommendations` always emits exactly one seasonal
(`tcm`) recommendation, with priority low, whose text is the spring/summer
cooling-foods text when the month index is below 6 and the fall/winter
warming-foods text otherwise; it is independent of the profile and the
entries. -/
theorem seasonalRec_unique (month : ℕ) (p : HealthProfile) (es : List FoodEntry) :
    (generateRecommendations month p es).filter (fun r => r.type = RecType.tcm)
        = [seasonalRec month]
    ∧ (seasonalRec month).priority = Priority.low
    ∧ (seasonalRec month).description =
        (if month < 6 then
          "Include cooling foods like cucumber, watermelon, and green leafy vegetables."
         else
          "Include warming foods like ginger, cinnamon, and cooked grains to support digestive health.") := by
  refine ⟨?_, rfl, ?_⟩
  · simp only [generateRecommendations, List.filter_append, List.filter_flatMap]
    simp [filter_if_singleton, proteinRec, fiberRec, sodiumRec, condRecsPass,
      diabetesMgmtRec, hypertensionRec, heartRec, seasonalRec, portionRec,
      List.filter_singleton, List.filter_cons, List.filter_nil]
  · by_cases h : month < 6 <;> simp [seasonalRec, h]

/-- Claim C8: `generateWeeklySummary` divides the weekly formatted totals by
the number of distinct entry dates (minimum divisor 1), rounding average
calories to an integer and the macro averages to two decimals; in the
concrete scenario of seven 200-calorie entries on seven distinct dates the
average is 200 calories over 7 tracked days. -/
theorem generateWeeklySummary_averages :
    (∀ (p : HealthProfile) (es : List FoodEntry),
      (generateWeeklySummary p es).daysTracked = max (distinctDates es) 1
      ∧ (generateWeeklySummary p es).calories
          = jsRound ((fmtTotalsOf es).calories / ((max (distinctDates es) 1 : ℕ) : ℚ))
      ∧ (generateWeeklySummary p es).protein
          = formatNumberQ ((fmtTotalsOf es).protein / ((max (distinctDates es) 1 : ℕ) : ℚ)) 2
      ∧ (generateWeeklySummary p es).carbs
          = formatNumberQ ((fmtTotalsOf es).carbs / ((max (distinctDates es) 1 : ℕ) : ℚ)) 2
      ∧ (generateWeeklySummary p es).fat
          = formatNumberQ ((fmtTotalsOf es).fat / ((max (distinctDates es) 1 : ℕ) : ℚ)) 2)
    ∧ (generateWeeklySummary sampleProfileEmpty weekEntries7).calories = 200
    ∧ (generateWeeklySummary sampleProfileEmpty weekEntries7).daysTracked = 7 := by
  have hdays : max (distinctDates weekEntries7) 1 = 7 := by decide
  have hsum : (fmtTotalsOf weekEntries7).calories = 1400 := by
    norm_num [fmtTotalsOf, rawTotalsOf, sumBy, formatNumberQ, jsToFixed, weekEntries7,
      weekEntry, calOnlyNutrition, List.foldl_cons, List.foldl_nil]
  refine ⟨fun p es => ⟨rfl, rfl, rfl, rfl, rfl⟩, ?_, ?_⟩
  · show jsRound ((fmtTotalsOf weekEntries7).calories
        / ((max (distinctDates weekEntries7) 1 : ℕ) : ℚ)) = 200
    rw [hsum, hdays]
    norm_num [jsRound]
  · show max (distinctDates weekEntries7) 1 = 7
    exact hdays

/-- Counterexample for C9 as stated: at the concrete numeric input 3/2 the
formatter's result is not a number (it is a string). -/
theorem formatNumber_not_num_counterexample :
    (formatNumber (JsVal.num (3/2)) 2).isNum = false := rfl

lemma jsToFixed_denom (q : ℚ) (d : ℕ) : ∃ k : ℤ, jsToFixed q d = (k : ℚ) / 10 ^ d :=
  ⟨⌊q * 10 ^ d + 1/2⌋, rfl⟩

lemma jsToFixed_close (q : ℚ) (d : ℕ) : |jsToFixed q d - q| ≤ 1 / (2 * 10 ^ d) := by
  have hpow : (0 : ℚ) < 10 ^ d := by positivity
  set x : ℚ := q * 10 ^ d with hx
  have h1 : ((⌊x + 1/2⌋ : ℤ) : ℚ) ≤ x + 1/2 := Int.floor_le _
  have h2 : x + 1/2 < (⌊x + 1/2⌋ : ℤ) + 1 := Int.lt_floor_add_one _
  have habs : |((⌊x + 1/2⌋ : ℤ) : ℚ) - x| ≤ 1/2 := abs_le.mpr ⟨by linarith, by linarith⟩
  have hrw : jsToFixed q d - q = (((⌊x + 1/2⌋ : ℤ) : ℚ) - x) / 10 ^ d := by
    rw [jsToFixed, hx]
    field_simp
    ring
  rw [hrw, abs_div, abs_of_pos hpow]
  calc |((⌊x + 1/2⌋ : ℤ) : ℚ) - x| / 10 ^ d
      ≤ (1/2) / 10 ^ d := (div_le_div_right hpow).mpr habs
    _ = 1 / (2 * 10 ^ d) := by ring

/-- Claim C9 (amended): the formatter always returns a string — `'0'` for
`undefined` or an unparseable string, and otherwise the rendering of the
input rounded half-up at the requested number of fractional digits, which
call sites convert back to a number; the rounded value is an integer
multiple of `10^-d` and lies within half a rounding unit of the input. -/
theorem formatNumber_amended :
    (∀ (v : JsVal) (d : ℕ), (formatNumber v d).isStr = true)
    ∧ (∀ (q : ℚ) (d : ℕ), formatNumber (JsVal.num q) d = JsVal.str (formatNumberStr q d))
    ∧ (∀ d : ℕ, formatNumber JsVal.undef d = JsVal.str (formatNumberStr 0 d))
    ∧ (∀ (s : String) (d : ℕ), parseFloatQ s = none →
        formatNumber (JsVal.str s) d = JsVal.str "0")
    ∧ (∀ (q : ℚ) (d : ℕ), ∃ k : ℤ, jsToFixed q d = (k : ℚ) / 10 ^ d)
    ∧ (∀ (q : ℚ) (d : ℕ), |jsToFixed q d - q| ≤ 1 / (2 * 10 ^ d)) := by
  refine ⟨?_, fun q d => rfl, fun d => rfl, ?_, jsToFixed_denom, jsToFixed_close⟩
  · intro v d
    cases v with
    | num q => rfl
    | undef => rfl
    | str s =>
      simp only [formatNumber]
      cases h : parseFloatQ s <;> simp [h, JsVal.isStr]
  · intro s d h
    simp [formatNumber, h]

/-- Witness for C9: the string "abc" has no numeric prefix and is formatted
to the string `'0'`. -/
theorem formatNumber_amended_witness :
    parseFloatQ "abc" = none ∧ formatNumber (JsVal.str "abc") 2 = JsVal.str "0" :=
  ⟨rfl, formatNumber_amended.2.2.2.1 "abc" 2 rfl⟩

lemma mem_ite_singleton {α : Type} {c a : α} {P : Prop} [Decidable P]
    (h : c ∈ (if P then [a] else [])) : P ∧ c = a := by
  by_cases hp : P
  · rw [if_pos hp] at h
    exact ⟨hp, List.mem_singleton.mp h⟩
  · rw [if_neg hp] at h
    exact absurd h (List.not_mem_nil c)

lemma diabetesAgg_sev (ts : ℚ) :
    (diabetesAggConflict ts).severity = Severity.high
    ∨ (diabetesAggConflict ts).severity = Severity.medium := by
  simp only [diabetesAggConflict]
  split_ifs <;> simp

lemma hyperAgg_sev (t : ℚ) :
    (hypertensionAggConflict t).severity = Severity.high
    ∨ (hypertensionAggConflict t).severity = Severity.medium := by
  simp only [hypertensionAggConflict]
  split_ifs <;> simp

/-- Claim C10: every conflict emitted by `detectConflicts` has type
`allergy` or `condition` and severity `high` or `medium`; in particular no
`medication`/`food_interaction` conflict and no low-severity conflict is
ever produced, so the scorer's 0.5-point low-severity branch never fires on
core-produced conflicts. -/
theorem detectConflicts_emits_only (p : HealthProfile) (es : List FoodEntry) :
    (∀ c ∈ detectConflicts p es,
      (c.type = ConflictType.allergy ∨ c.type = ConflictType.condition)
      ∧ (c.severity = Severity.high ∨ c.severity = Severity.medium))
    ∧ countSeverity Severity.low (detectConflicts p es) = 0 := by
  have hmem : ∀ c ∈ detectConflicts p es,
      (c.type = ConflictType.allergy ∨ c.type = ConflictType.condition)
      ∧ (c.severity = Severity.high ∨ c.severity = Severity.medium) := by
    intro c hc
    simp only [detectConflicts] at hc
    rcases List.mem_append.mp hc with hc' | hper
    · rcases List.mem_append.mp hc' with hall | hagg
      · rcases List.mem_flatMap.mp hall with ⟨e, _, h1⟩
        rcases List.mem_flatMap.mp h1 with ⟨a, _, h2⟩
        obtain ⟨_, rfl⟩ := mem_ite_singleton h2
        exact ⟨Or.inl rfl, Or.inl rfl⟩
      · rcases List.mem_flatMap.mp hagg with ⟨cond, _, h1⟩
        simp only [condAggPass] at h1
        rcases List.mem_append.mp h1 with h2 | h3
        · rcases List.mem_append.mp h2 with hd | hh
          · obtain ⟨_, rfl⟩ := mem_ite_singleton hd
            exact ⟨Or.inr rfl, diabetesAgg_sev _⟩
          · obtain ⟨_, rfl⟩ := mem_ite_singleton hh
            exact ⟨Or.inr rfl, hyperAgg_sev _⟩
        · obtain ⟨_, rfl⟩ := mem_ite_singleton h3
          exact ⟨Or.inr rfl, Or.inr rfl⟩
    · rcases List.mem_flatMap.mp hper with ⟨cond, _, h1⟩
      rcases List.mem_flatMap.mp h1 with ⟨e, _, h2⟩
      simp only [perEntryPass] at h2
      rcases List.mem_append.mp h2 with hd | hh
      · obtain ⟨_, rfl⟩ := mem_ite_singleton hd
        exact ⟨Or.inr rfl, Or.inr rfl⟩
      · obtain ⟨_, rfl⟩ := mem_ite_singleton hh
        exact ⟨Or.inr rfl, Or.inr rfl⟩
  refine ⟨hmem, ?_⟩
  simp only [countSeverity, List.length_eq_zero, List.filter_eq_nil]
  intro c hc
  rcases (hmem c hc).2 with h | h <;> simp [h]

/-- A profile whose only notable attribute is a peanut allergy. -/
def peanutProfile : HealthProfile :=
  { sampleProfileEmpty with allergies := ["peanut"] }

/-- A peanut-butter entry matching the peanut allergy. -/
def peanutEntry : FoodEntry :=
  { profileId := "default", foodName := "Peanut Butter Sandwich", servingSize := 1,
    servingUnit := "piece", mealType := "lunch", nutritionData := calOnlyNutrition 300,
    entryDate := "2025-01-01" }

/-- Witness for C10: the concrete allergy conflict produced for the peanut
scenario has type `allergy` and severity `high`/`medium`. -/
theorem detectConflicts_emits_only_witness :
    ((allergyConflict peanutEntry "peanut").type = ConflictType.allergy
      ∨ (allergyConflict peanutEntry "peanut").type = ConflictType.condition)
    ∧ ((allergyConflict peanutEntry "peanut").severity = Severity.high
      ∨ (allergyConflict peanutEntry "peanut").severity = Severity.medium) :=
  (detectConflicts_emits_only peanutProfile [peanutEntry]).1
    (allergyConflict peanutEntry "peanut") (by decide)

lemma strApp_data_get (pfx rest : String) (i : ℕ) (h : i < pfx.data.length) :
    (pfx ++ rest).data[i]? = pfx.data[i]? := by
  rw [String.data_append, List.getElem?_append_left h]

lemma ne_of_get (s t : String) (i : ℕ) (h : s.data[i]? ≠ t.data[i]?) : s ≠ t := by
  intro he
  exact h (by rw [he])

lemma descD_ne_descH (x y : String) :
    ("High sugar intake (" ++ x) ≠ ("High sodium intake (" ++ y) := by
  apply ne_of_get _ _ 6
  rw [strApp_data_get _ _ 6 (by decide), strApp_data_get _ _ 6 (by decide)]
  decide

lemma descD_ne_heart (x : String) :
    ("High sugar intake (" ++ x)
      ≠ "Elevated saturated fat intake may impact heart health. Consider lean proteins and healthy fats." := by
  apply ne_of_get _ _ 0
  rw [strApp_data_get _ _ 0 (by decide)]
  decide

lemma descD_ne_perD (x y : String) :
    ("High sugar intake (" ++ x) ≠ ("High sugar content in " ++ y) := by
  apply ne_of_get _ _ 11
  rw [strApp_data_get _ _ 11 (by decide), strApp_data_get _ _ 11 (by decide)]
  decide

lemma descD_ne_perH (x y : String) :
    ("High sugar intake (" ++ x) ≠ ("High sodium content in " ++ y) := by
  apply ne_of_get _ _ 6
  rw [strApp_data_get _ _ 6 (by decide), strApp_data_get _ _ 6 (by decide)]
  decide

lemma diabetes_mem_condAggPass (tsod ts tfat : ℚ) (cond : String)
    (hdia : strHas (toLowerS cond) "diabetes" = true) (h50 : ts > 50) :
    diabetesAggConflict ts ∈ condAggPass tsod ts tfat cond := by
  simp only [condAggPass]
  refine List.mem_append.mpr (Or.inl (List.mem_append.mpr (Or.inl ?_)))
  rw [if_pos ⟨hdia, h50⟩]
  exact List.mem_singleton.mpr rfl

/-- Claim C3: for a profile with a medical condition containing "diabetes"
(case-insensitively), the aggregate diabetes conflict is emitted by
`detectConflicts` exactly when the formatted daily sugar total strictly
exceeds 50 g (so a total of exactly 50 does not trigger it), and the emitted
conflict is high-severity exactly when the total exceeds 80 g, medium
otherwise. -/
theorem detectConflicts_diabetesAgg (p : HealthProfile) (es : List FoodEntry)
    (hd : ∃ cond ∈ p.medicalConditions, strHas (toLowerS cond) "diabetes" = true) :
    (diabetesAggConflict (totalSugarFmt es) ∈ detectConflicts p es ↔ totalSugarFmt es > 50)
    ∧ ((diabetesAggConflict (totalSugarFmt es)).severity = Severity.high
        ↔ totalSugarFmt es > 80)
    ∧ (¬ totalSugarFmt es > 80 →
        (diabetesAggConflict (totalSugarFmt es)).severity = Severity.medium) := by
  refine ⟨⟨?_, ?_⟩, ?_, ?_⟩
  · intro hmem
    simp only [detectConflicts] at hmem
    rcases List.mem_append.mp hmem with hc' | hper
    · rcases List.mem_append.mp hc' with hall | hagg
      · rcases List.mem_flatMap.mp hall with ⟨e, _, h1⟩
        rcases List.mem_flatMap.mp h1 with ⟨a, _, h2⟩
        obtain ⟨_, heq⟩ := mem_ite_singleton h2
        have ht := congrArg ConflictResult.type heq
        simp [diabetesAggConflict, allergyConflict] at ht
      · rcases List.mem_flatMap.mp hagg with ⟨cond, _, h1⟩
        simp only [condAggPass] at h1
        rcases List.mem_append.mp h1 with h2 | h3
        · rcases List.mem_append.mp h2 with hdm | hh
          · exact (mem_ite_singleton hdm).1.2
          · obtain ⟨_, heq⟩ := mem_ite_singleton hh
            have hdsc := congrArg ConflictResult.description heq
            exact absurd hdsc (descD_ne_descH _ _)
        · obtain ⟨_, heq⟩ := mem_ite_singleton h3
          have hdsc := congrArg ConflictResult.description heq
          exact absurd hdsc (descD_ne_heart _)
    · rcases List.mem_flatMap.mp hper with ⟨cond, _, h1⟩
      rcases List.mem_flatMap.mp h1 with ⟨e, _, h2⟩
      simp only [perEntryPass] at h2
      rcases List.mem_append.mp h2 with hdm | hh
      · obtain ⟨_, heq⟩ := mem_ite_singleton hdm
        have hdsc := congrArg ConflictResult.description heq
        exact absurd hdsc (descD_ne_perD _ _)
      · obtain ⟨_, heq⟩ := mem_ite_singleton hh
        have hdsc := congrArg ConflictResult.description heq
        exact absurd hdsc (descD_ne_perH _ _)
  · intro h50
    rcases hd with ⟨cond, hcond, hdia⟩
    simp only [detectConflicts]
    exact List.mem_append.mpr (Or.inl (List.mem_append.mpr (Or.inr
      (List.mem_flatMap.mpr ⟨cond, hcond, diabetes_mem_condAggPass _ _ _ _ hdia h50⟩))))
  · by_cases h : totalSugarFmt es > 80 <;> simp [diabetesAggConflict, h]
  · intro h
    simp [diabetesAggConflict, h]

/-- A profile whose only medical condition is "diabetes". -/
def diabetesProfile : HealthProfile :=
  { sampleProfileEmpty with medicalConditions := ["diabetes"] }

/-- A nutrition record carrying only sugar. -/
def sugarNutrition (sugar : ℚ) : NutritionData :=
  { calories := 0, protein := 0, carbs := 0, fat := 0, fiber := none, sugar := some sugar,
    sodium := none, vitamins := none, minerals := none }

/-- An entry with exactly 50.01 g of sugar. -/
def sugarEntry5001 : FoodEntry :=
  { profileId := "default", foodName := "Cake", servingSize := 1, servingUnit := "piece",
    mealType := "snack", nutritionData := sugarNutrition (5001/100), entryDate := "2025-01-01" }

/-- An entry with exactly 50.00 g of sugar. -/
def sugarEntry5000 : FoodEntry :=
  { profileId := "default", foodName := "Cake", servingSize := 1, servingUnit := "piece",
    mealType := "snack", nutritionData := sugarNutrition 50, entryDate := "2025-01-01" }

/-- Witness for C3 at the threshold: a formatted sugar total of 50.01 g
triggers the aggregate diabetes conflict and a total of exactly 50.00 g
does not. -/
theorem detectConflicts_diabetesAgg_witness :
    diabetesAggConflict (totalSugarFmt [sugarEntry5001])
        ∈ detectConflicts diabetesProfile [sugarEntry5001]
    ∧ diabetesAggConflict (totalSugarFmt [sugarEntry5000])
        ∉ detectConflicts diabetesProfile [sugarEntry5000] := by
  have hd1 : ∃ cond ∈ diabetesProfile.medicalConditions,
      strHas (toLowerS cond) "diabetes" = true := ⟨"diabetes", by decide, by decide⟩
  have h1 : totalSugarFmt [sugarEntry5001] = 5001/100 := by
    norm_num [totalSugarFmt, sumBy, formatNumberQ, jsToFixed, sugarEntry5001, sugarNutrition, optQ]
  have h0 : totalSugarFmt [sugarEntry5000] = 50 := by
    norm_num [totalSugarFmt, sumBy, formatNumberQ, jsToFixed, sugarEntry5000, sugarNutrition, optQ]
  constructor
  · exact (detectConflicts_diabetesAgg diabetesProfile [sugarEntry5001] hd1).1.mpr
      (by rw [h1]; norm_num)
  · intro hmem
    have := (detectConflicts_diabetesAgg diabetesProfile [sugarEntry5000] hd1).1.mp hmem
    rw [h0] at this
    exact absurd this (by norm_num)

/-- Counterexample for C5 as stated: for the concrete empty scenario
(profile with no conditions and no allergies, zero entries) the
recommendation list is not empty — the error-handling sentence of the spec
("empty recommendation lists") does not match the code. -/
theorem emptyScenario_recs_nonempty_counterexample :
    generateRecommendations 0 sampleProfileEmpty [] ≠ [] := by
  have hm : seasonalRec 0 ∈ generateRecommendations 0 sampleProfileEmpty [] := by
    simp [generateRecommendations]
  exact List.ne_nil_of_mem hm

/-- Claim C5 (amended): for a profile with no medical conditions and no
allergies and an empty entry list, `detectConflicts` returns the empty
list, the status is "safe", all aggregated daily totals are zero, and the
health score is 6 (10 minus 1.5 for protein 0 < 30, 1 for fiber 0 < 15 and
1.5 for calories 0 < 1200) — but the recommendation list is not empty: it
is exactly the protein recommendation (0 < 50), the fiber recommendation
(0 < 25) and the seasonal recommendation. -/
theorem emptyScenario (month : ℕ) (p : HealthProfile)
    (hc : p.medicalConditions = []) (ha : p.allergies = []) :
    detectConflicts p [] = []
    ∧ determineStatus (detectConflicts p []) = "safe"
    ∧ dailyTotals [] = ⟨0, 0, 0, 0, 0, 0, 0⟩
    ∧ generateRecommendations month p [] = [proteinRec 0 0, fiberRec 0, seasonalRec month]
    ∧ calculateHealthScore p [] (detectConflicts p []) = 6 := by
  have h0 : detectConflicts p [] = [] := by
    simp [detectConflicts, allergyPass, hc]
  refine ⟨h0, by rw [h0]; rfl, ?_, ?_, ?_⟩
  · norm_num [dailyTotals, fmtTotalsOf, rawTotalsOf, sumBy, formatNumberQ, jsToFixed]
  · norm_num [generateRecommendations, fmtTotalsOf, rawTotalsOf, sumBy, formatNumberQ,
      jsToFixed, hc]
  · rw [h0]
    norm_num [calculateHealthScore, healthScoreRaw, fmtTotalsOf, rawTotalsOf, sumBy,
      formatNumberQ, jsToFixed, jsRound, hc, min_def, max_def]

/-- Witness for C5 at the concrete empty profile and month 0: the exact
three-element recommendation list and the score of 6. -/
theorem emptyScenario_witness :
    generateRecommendations 0 sampleProfileEmpty []
        = [proteinRec 0 0, fiberRec 0, seasonalRec 0]
    ∧ calculateHealthScore sampleProfileEmpty [] (detectConflicts sampleProfileEmpty []) = 6 :=
  ⟨(emptyScenario 0 sampleProfileEmpty rfl rfl).2.2.2.1,
   (emptyScenario 0 sampleProfileEmpty rfl rfl).2.2.2.2⟩
